import Mathlib

/-!
Verification of the openclaw-sandbox CLI orchestration core.

This file shallowly embeds the Python modules `lima_config.py`,
`ansible_runner.py`, `lima_manager.py`, `validation.py` and
`orchestrator.py` of the `sandbox_cli` package, and proves properties of
the embedded definitions.

Conventions of the embedding:
* Filesystem and subprocess interactions are abstracted into explicit
  records (`HostFS` for path resolution / file queries, `World` for the
  outcomes of the external subprocess calls an orchestration run makes).
  The Python functions then become pure Lean functions of those records.
* Python strings are Lean `String`s; where character-level reasoning is
  needed (SSH-config and secrets-file parsing) we work on `List Char`
  (`String.data`).
* Python truthiness of a `str` is the test `≠ ""`; of a `list`, `≠ []`.
* Exit codes are `Int` (a CPython `returncode` can be negative).
-/

namespace OpenclawSandbox

/-! ## Character-level helpers (Python `str.strip`, prefixes, splitting) -/

/-- Whitespace characters recognised by Python's `str.strip()` and by the
`\s` regex class, restricted to the ASCII range (all inputs the CLI
handles here are ASCII). -/
def isPySpace (c : Char) : Bool :=
  c = ' ' || c = '\t' || c = '\n' || c = '\r' || c = '\x0b' || c = '\x0c'

/-- Drop trailing characters satisfying `isPySpace`. -/
def dropTrailWs (l : List Char) : List Char :=
  (l.reverse.dropWhile isPySpace).reverse

/-- Python `str.strip()` on a character list. -/
def trimC (l : List Char) : List Char :=
  dropTrailWs (l.dropWhile isPySpace)

/-- If `pre` is a literal prefix of `l`, return the remainder. -/
def dropPre : List Char → List Char → Option (List Char)
  | [], rest => some rest
  | _ :: _, [] => none
  | c :: cs, d :: ds => if c = d then dropPre cs ds else none

/-- Split a character list on newline characters (Python
`str.split("\n")`; for the line-oriented parsers below this agrees with
`str.splitlines()` on every input that matters, because the parsers skip
blank lines and strip `\r`). -/
def splitNl : List Char → List (List Char)
  | [] => [[]]
  | c :: cs =>
    let r := splitNl cs
    if c = '\n' then [] :: r
    else
      match r with
      | h :: t => (c :: h) :: t
      | [] => [[c]]

/-- Python `", ".join(l)`. -/
def joinComma : List String → String
  | [] => ""
  | [s] => s
  | s :: rest => s ++ ", " ++ joinComma rest

/-- Python `str(b).lower()` for a `bool`. -/
def boolLower (b : Bool) : String := if b then "true" else "false"

/-! ## Data model (`models.py`) -/

/-- `Mounts` (models.py): a mount role is unconfigured iff its field is
the empty string (Python falsiness of `str`). -/
structure Mounts where
  openclaw : String := ""
  config : String := ""
  agent_data : String := ""
  buildlog_data : String := ""
  secrets : String := ""
  vault : String := ""
deriving Repr, DecidableEq

/-- `Mode` (models.py). -/
structure Mode where
  yolo : Bool := false
  yolo_unsafe : Bool := false
  no_docker : Bool := false
  memgraph : Bool := false
  memgraph_ports : List Int := []
deriving Repr, DecidableEq

/-- `Resources` (models.py). -/
structure Resources where
  cpus : Int := 4
  memory : String := "8GiB"
  disk : String := "50GiB"
deriving Repr, DecidableEq

/-- `SandboxProfile` (models.py).  `extra_vars` is a Python `dict`, which
preserves insertion order; we model it as an association list. -/
structure SandboxProfile where
  mounts : Mounts := {}
  mode : Mode := {}
  resources : Resources := {}
  extra_vars : List (String × String) := []
deriving Repr, DecidableEq

/-! ## Host filesystem abstraction

The Python code calls `Path.expanduser`, `Path.resolve`, `Path.parent`,
`Path.name`, `Path.exists`, `Path.is_dir` and `Path.read_text`.  We
abstract these as an explicit record, so the embedded functions are pure
in the state of the host filesystem. -/

structure HostFS where
  expanduser : String → String
  resolve : String → String
  parent : String → String
  basename : String → String
  pathExists : String → Bool
  isDir : String → Bool
  readText : String → Except String String

/-- `_expand` (lima_config.py line 54): `Path(raw).expanduser()` then
`resolve()`, as a string. -/
def expandPath (fs : HostFS) (raw : String) : String :=
  fs.resolve (fs.expanduser raw)

/-! ## `lima_config.py`: mount / port-forward context construction -/

/-- `MountSpec` (lima_config.py). -/
structure MountSpec where
  location : String
  mount_point : String
  writable : Bool
deriving Repr, DecidableEq

/-- `PortForwardSpec` (lima_config.py). -/
structure PortForwardSpec where
  guest_port : Int
  host_port : Int
  proto : String := "tcp"
deriving Repr, DecidableEq

/-- `LimaConfigContext` (lima_config.py). -/
structure LimaConfigContext where
  vm_cpus : Int
  vm_memory : String
  vm_disk : String
  mounts : List MountSpec := []
  port_forwards : List PortForwardSpec := []
deriving Repr, DecidableEq

/-- `build_context` (lima_config.py lines 60-164).  The `mkdir` calls for
`agent_data` / `buildlog_data` are host side effects that do not affect
the returned context and are not modelled.  The Python `elif
profile.mode.memgraph_ports:` truthiness test is absorbed into the `map`
(an empty port list contributes no entries either way). -/
def build_context (fs : HostFS) (profile : SandboxProfile) (bootstrap_dir : String) :
    LimaConfigContext :=
  let writable := profile.mode.yolo_unsafe
  let mounts : List MountSpec :=
    (if profile.mounts.openclaw ≠ "" then
      [{ location := expandPath fs profile.mounts.openclaw
         mount_point := "/mnt/openclaw", writable := writable }]
     else [])
    ++ [{ location := fs.resolve bootstrap_dir
          mount_point := "/mnt/provision", writable := false }]
    ++ (if profile.mounts.vault ≠ "" then
      [{ location := expandPath fs profile.mounts.vault
         mount_point := "/mnt/obsidian", writable := writable }]
     else [])
    ++ (if profile.mounts.config ≠ "" then
      [{ location := expandPath fs profile.mounts.config
         mount_point := "/mnt/openclaw-config", writable := writable }]
     else [])
    ++ (if profile.mounts.agent_data ≠ "" then
      [{ location := expandPath fs profile.mounts.agent_data
         mount_point := "/mnt/openclaw-agents", writable := true }]
     else [])
    ++ (if profile.mounts.buildlog_data ≠ "" then
      [{ location := expandPath fs profile.mounts.buildlog_data
         mount_point := "/mnt/buildlog-data", writable := true }]
     else [])
    ++ (if profile.mounts.secrets ≠ "" then
      [{ location := fs.parent (expandPath fs profile.mounts.secrets)
         mount_point := "/mnt/secrets", writable := false }]
     else [])
  let port_forwards : List PortForwardSpec :=
    { guest_port := 18789, host_port := 18789 }
    :: (if profile.mode.memgraph then
          [{ guest_port := 7687, host_port := 7687 },
           { guest_port := 3000, host_port := 3000 },
           { guest_port := 7444, host_port := 7444 }]
        else profile.mode.memgraph_ports.map
          (fun port => { guest_port := port, host_port := port }))
  { vm_cpus := profile.resources.cpus
    vm_memory := profile.resources.memory
    vm_disk := profile.resources.disk
    mounts := mounts
    port_forwards := port_forwards }

/-- `secrets_filename` (lima_config.py lines 197-201). -/
def secrets_filename (fs : HostFS) (profile : SandboxProfile) : String :=
  if profile.mounts.secrets ≠ "" then
    fs.basename (expandPath fs profile.mounts.secrets)
  else ""

/-! ## `ansible_runner.py`: extra-vars construction and playbook run -/

/-- Flatten key/value pairs into `-e key=value` argument pairs by the
`argv.extend` loop of `build_extra_vars` (ansible_runner.py lines 55-62). -/
def extendArgs (argv : List String) : List (String × String) → List String
  | [] => argv
  | kv :: rest => extendArgs (argv ++ ["-e", kv.1 ++ "=" ++ kv.2]) rest

/-- The closed form the loops of `build_extra_vars` compute: one `-e`
flag followed by `key=value` per pair, in order. -/
def flatPairs (pairs : List (String × String)) : List String :=
  pairs.flatMap (fun kv => ["-e", kv.1 ++ "=" ++ kv.2])

/-- `build_extra_vars` (ansible_runner.py lines 29-63).  `tenant` is the
result of `getpass.getuser()` (the current OS user), passed explicitly. -/
def build_extra_vars (fs : HostFS) (tenant : String) (profile : SandboxProfile) :
    List String :=
  let sec_fname := secrets_filename fs profile
  let agent_mount := if profile.mounts.agent_data ≠ "" then "/mnt/openclaw-agents" else ""
  let buildlog_mount := if profile.mounts.buildlog_data ≠ "" then "/mnt/buildlog-data" else ""
  let pairs : List (String × String) :=
    [("tenant_name", tenant),
     ("provision_path", "/mnt/provision"),
     ("openclaw_path", "/mnt/openclaw"),
     ("obsidian_path", "/mnt/obsidian"),
     ("secrets_filename", sec_fname),
     ("overlay_yolo_mode", boolLower profile.mode.yolo),
     ("overlay_yolo_unsafe", boolLower profile.mode.yolo_unsafe),
     ("docker_enabled", boolLower (!profile.mode.no_docker)),
     ("agent_data_mount", agent_mount),
     ("buildlog_data_mount", buildlog_mount),
     ("memgraph_enabled", boolLower profile.mode.memgraph)]
  extendArgs (extendArgs [] pairs) profile.extra_vars

/-! ## `validation.py`: pre-flight validation -/

/-- `KNOWN_SECRET_KEYS` (validation.py lines 11-22), in source order. -/
def KNOWN_SECRET_KEYS : List String :=
  ["ANTHROPIC_API_KEY", "OPENAI_API_KEY", "GEMINI_API_KEY", "OPENROUTER_API_KEY",
   "OPENCLAW_GATEWAY_PASSWORD", "OPENCLAW_GATEWAY_TOKEN", "GH_TOKEN",
   "SLACK_BOT_TOKEN", "DISCORD_BOT_TOKEN", "TELEGRAM_BOT_TOKEN"]

/-- `REQUIRED_SECRET_KEYS` (validation.py lines 25-28). -/
def REQUIRED_SECRET_KEYS : List String := ["ANTHROPIC_API_KEY", "GH_TOKEN"]

/-- Lexicographic (code-point) order on character lists: exactly
Python's `str` comparison for the ASCII key names involved. -/
def strLeC : List Char → List Char → Bool
  | [], _ => true
  | _ :: _, [] => false
  | a :: as, b :: bs =>
    if a.toNat < b.toNat then true
    else if a.toNat = b.toNat then strLeC as bs
    else false

/-- Python `s1 <= s2` on strings, as a proposition. -/
def strLeP (a b : String) : Prop := strLeC a.data b.data = true

instance : DecidableRel strLeP := fun a b => by
  unfold strLeP
  infer_instance

theorem strLeC_total (a b : List Char) : strLeC a b = true ∨ strLeC b a = true := by
  induction a generalizing b with
  | nil => left; rfl
  | cons c cs ih =>
    cases b with
    | nil => right; rfl
    | cons d ds =>
      rcases Nat.lt_trichotomy c.toNat d.toNat with h | h | h
      · left; simp [strLeC, h]
      · rcases ih ds with h2 | h2
        · left; simp [strLeC, h, h2]
        · right; simp [strLeC, h.symm, h2]
      · right; simp [strLeC, h]

theorem strLeC_trans (a b c : List Char) (h1 : strLeC a b = true)
    (h2 : strLeC b c = true) : strLeC a c = true := by
  induction a generalizing b c with
  | nil => rfl
  | cons x xs ih =>
    cases b with
    | nil => simp [strLeC] at h1
    | cons y ys =>
      cases c with
      | nil => simp [strLeC] at h2
      | cons z zs =>
        simp only [strLeC] at h1 h2 ⊢
        split at h1
        · rename_i hxy
          split at h2
          · rename_i hyz
            simp [Nat.lt_trans hxy hyz]
          · split at h2
            · rename_i hyz
              simp [hyz ▸ hxy]
            · exact absurd h2 (by simp)
        · split at h1
          · rename_i hxy
            split at h2
            · rename_i hyz
              simp [hxy ▸ hyz]
            · split at h2
              · rename_i hyz
                have hxz : x.toNat = z.toNat := hxy.trans hyz
                simp only [hxz, if_pos rfl, lt_irrefl, if_neg (lt_irrefl _)]
                exact ih ys zs h1 h2
              · exact absurd h2 (by simp)
          · exact absurd h1 (by simp)

instance : IsTotal String strLeP := ⟨fun a b => strLeC_total a.data b.data⟩

instance : IsTrans String strLeP := ⟨fun a b c => strLeC_trans a.data b.data c.data⟩

/-- Python `sorted` on strings (ascending code-point lexicographic
order); the key sets hold no duplicates so stability is irrelevant. -/
def sortedStr (l : List String) : List String := List.insertionSort strLeP l

/-- One iteration of the secrets parsing loop of `_check_secrets`
(validation.py lines 85-93): `None` when the stripped line is skipped
(blank or comment), otherwise the key recorded into `present`. -/
def lineKeyC (line : List Char) : Option (List Char) :=
  let l := trimC line
  if l = [] then none
  else if l.head? = some '#' then none
  else
    let l2 := match dropPre "export ".data l with
      | some rest => rest
      | none => l
    some (trimC (l2.takeWhile (· ≠ '=')))

/-- The `present` key set collected by `_check_secrets` from the file
text (membership is all the audit uses, so a list with possible
duplicates is a faithful model of the Python `set`). -/
def presentKeys (text : String) : List String :=
  (splitNl text.data).filterMap (fun line => (lineKeyC line).map (fun cs => ⟨cs⟩))

/-- `sorted(REQUIRED_SECRET_KEYS - present)` (validation.py line 95). -/
def missingRequired (present : List String) : List String :=
  sortedStr (REQUIRED_SECRET_KEYS.filter (fun k => k ∉ present))

/-- `sorted((KNOWN_SECRET_KEYS - REQUIRED_SECRET_KEYS) - present)`
(validation.py line 101). -/
def missingOptional (present : List String) : List String :=
  sortedStr ((KNOWN_SECRET_KEYS.filter (fun k => k ∉ REQUIRED_SECRET_KEYS)).filter
    (fun k => k ∉ present))

/-- `_check_secrets` (validation.py lines 68-105); returns the `(errors,
warnings)` it appends to the shared result. -/
def check_secrets (fs : HostFS) (profile : SandboxProfile) : List String × List String :=
  if profile.mounts.secrets = "" then
    ([], ["No secrets file configured — VM will have no API keys"])
  else
    let p := fs.expanduser profile.mounts.secrets
    if fs.pathExists p = false then ([], [])
    else
      match fs.readText p with
      | .error exc => (["Cannot read secrets file: " ++ exc], [])
      | .ok text =>
        let present := presentKeys text
        let missing_required := missingRequired present
        let missing_optional := missingOptional present
        ((if missing_required ≠ [] then
            ["Secrets file is missing required keys: " ++ joinComma missing_required]
          else []),
         (if missing_optional ≠ [] then
            ["Secrets file is missing optional keys: " ++ joinComma missing_optional]
          else []))

/-- One entry of the `mount_fields` loop body of `_check_paths`
(validation.py lines 60-65): the error it appends, if any. -/
def pathFieldErr (fs : HostFS) (name raw : String) : List String :=
  if raw = "" then []
  else if fs.pathExists (fs.expanduser raw) then []
  else ["mount." ++ name ++ ": path does not exist: " ++ fs.expanduser raw]

/-- `_check_paths` (validation.py lines 50-65): the loop over the literal
`mount_fields` dict (insertion-ordered), unrolled. -/
def check_paths (fs : HostFS) (profile : SandboxProfile) : List String :=
  pathFieldErr fs "openclaw" profile.mounts.openclaw
  ++ pathFieldErr fs "config" profile.mounts.config
  ++ pathFieldErr fs "agent_data" profile.mounts.agent_data
  ++ pathFieldErr fs "buildlog_data" profile.mounts.buildlog_data
  ++ pathFieldErr fs "secrets" profile.mounts.secrets
  ++ pathFieldErr fs "vault" profile.mounts.vault

/-- `_check_coherence` (validation.py lines 108-117); `(errors,
warnings)` appended. -/
def check_coherence (profile : SandboxProfile) : List String × List String :=
  ((if profile.mode.yolo && profile.mode.yolo_unsafe then
      ["yolo and yolo_unsafe are mutually exclusive"]
    else []),
   (if profile.mounts.openclaw = "" then
      ["No openclaw mount — required for new VMs (ignored for existing ones)"]
    else []))

/-- `ValidationResult` (validation.py lines 31-38). -/
structure ValidationResult where
  errors : List String
  warnings : List String
deriving Repr, DecidableEq

/-- The `ok` property: `len(self.errors) == 0`. -/
def ValidationResult.ok (r : ValidationResult) : Bool := r.errors.length = 0

/-- `validate_profile` (validation.py lines 41-47): the three checks
append to one shared result, in call order (`_check_paths` adds only
errors, `_check_secrets` and `_check_coherence` add both). -/
def validate_profile (fs : HostFS) (profile : SandboxProfile) : ValidationResult :=
  { errors := check_paths fs profile ++ (check_secrets fs profile).1
      ++ (check_coherence profile).1
    warnings := (check_secrets fs profile).2 ++ (check_coherence profile).2 }

/-! ## `lima_manager.py`: SSH-config parsing -/

/-- `SSHDetails` (lima_manager.py lines 16-23). -/
structure SSHDetails where
  host : String
  port : Int
  user : String
  key_path : String
deriving Repr, DecidableEq

/-- Match of the `_parse_ssh_field` regex `^\s*<field>\s+(.+)$`
(lima_manager.py lines 210-214) against one line, composed with the
caller's `.strip()` of the captured group.  A line matches iff after
optional leading whitespace it carries the literal field name followed by
at least one whitespace character and at least one further character; the
returned value is the rest of the line after the field name, stripped
(backtracking inside `\s+(.+)` makes the group-then-strip equal to
stripping the whole remainder).  The one input family this line model
does not reproduce is a field name standing alone at the end of a line,
where Python's `\s+` could swallow the newline and pair it with the next
line; `show-ssh` output never produces that shape. -/
def matchFieldLine (fieldName : List Char) (line : List Char) : Option (List Char) :=
  match dropPre fieldName (line.dropWhile isPySpace) with
  | none => none
  | some [] => none
  | some (c :: cs) =>
    if isPySpace c ∧ cs ≠ [] then some (trimC (c :: cs)) else none

/-- `_parse_ssh_field` over the lines of the `show-ssh` output: first
matching line wins (`re.search` with `re.MULTILINE` scans forward). -/
def parse_ssh_field (lines : List (List Char)) (fieldName : List Char) : Option (List Char) :=
  match lines with
  | [] => none
  | l :: ls =>
    match matchFieldLine fieldName l with
    | some v => some v
    | none => parse_ssh_field ls fieldName

/-- Python's `x or default` for an optional string: `None` and the empty
string both fall back to the default. -/
def orDefaultStr (o : Option (List Char)) (d : List Char) : List Char :=
  match o with
  | some s => if s = [] then d else s
  | none => d

/-- Python `str.strip('"')`: remove double quotes from both ends. -/
def stripQuotes (s : List Char) : List Char :=
  ((s.dropWhile (· = '"')).reverse.dropWhile (· = '"')).reverse

/-- Digit-string value for `int()`. -/
def digitsVal : List Char → Option Nat
  | [] => none
  | [c] => if c.isDigit then some (c.toNat - '0'.toNat) else none
  | c :: cs =>
    if c.isDigit then
      (digitsVal cs).map (fun n => (c.toNat - '0'.toNat) * 10 ^ cs.length + n)
    else none

/-- Python `int(s)` for a plain decimal literal with optional surrounding
whitespace and sign (the digit-group/underscore extensions are not
modelled; the port strings Lima emits are plain decimals). -/
def pyInt : List Char → Option Int
  | s =>
    match trimC s with
    | '-' :: ds => (digitsVal ds).map (fun n => -(n : Int))
    | '+' :: ds => (digitsVal ds).map (fun n => (n : Int))
    | ds => (digitsVal ds).map (fun n => (n : Int))

/-- The `host` binding of `get_ssh_details` (lima_manager.py line 155). -/
def hostOf (lines : List (List Char)) : List Char :=
  orDefaultStr (parse_ssh_field lines "Hostname".data) "127.0.0.1".data

/-- The `port_str` binding (lima_manager.py line 156). -/
def portStrOf (lines : List (List Char)) : List Char :=
  orDefaultStr (parse_ssh_field lines "Port".data) "22".data

/-- The `user` binding (lima_manager.py line 157); `login` is
`os.getlogin()`, passed explicitly. -/
def userOf (lines : List (List Char)) (login : List Char) : List Char :=
  orDefaultStr (parse_ssh_field lines "User".data) login

/-- The `key` value after the quote-stripping step (lima_manager.py
lines 158-160): `[]` encodes both `None` and the empty string, which the
subsequent `if not key` check treats identically. -/
def keyOf (lines : List (List Char)) : List Char :=
  match parse_ssh_field lines "IdentityFile".data with
  | none => []
  | some k => if k ≠ [] then stripQuotes k else k

/-- `get_ssh_details` (lima_manager.py lines 144-165) applied to the
lines of a successful `show-ssh` output.  The missing-key check runs
before `int(port_str)` is evaluated, as in the source; a non-numeric
port raises `ValueError`, modelled as an error result. -/
def get_ssh_details (lines : List (List Char)) (login : List Char) :
    Except String SSHDetails :=
  if keyOf lines = [] then .error "Could not determine SSH key from Lima"
  else
    match pyInt (portStrOf lines) with
    | none => .error "ValueError: invalid port literal"
    | some p =>
      .ok { host := ⟨hostOf lines⟩, port := p, user := ⟨userOf lines login⟩
            key_path := ⟨keyOf lines⟩ }

/-! ## `orchestrator.py`: the up-workflow

Subprocess outcomes an orchestration run observes, in one record.  The
orchestrator then becomes a pure function of this `World`, the host
filesystem, and the profile, returning the exit code plus a trace of the
observable facts the claims are about. -/

structure World where
  /-- `check_brew()` succeeds (does not raise `DependencyError`). -/
  brewOk : Bool
  /-- `install_brew_deps` return code. -/
  brewDepsRc : Int
  /-- `install_ansible_collections` return code (non-fatal). -/
  collectionsRc : Int
  /-- `lima.vm_exists()`. -/
  vmExists : Bool
  /-- `lima.ensure_running(...)`: `ok created` or a `LimaError` message. -/
  ensureRunning : Except String Bool
  /-- `lima.verify_mount(mount_point)` per mount point. -/
  verifyMount : String → Bool
  /-- `lima.get_ssh_details()` outcome: details or a `LimaError` message. -/
  sshDetails : Except String SSHDetails
  /-- `ansible-playbook` subprocess return code. -/
  ansibleRc : Int
  /-- The `tempfile.mkstemp` inventory path. -/
  invPath : String
  /-- `rsync` subprocess return code (vault sync). -/
  rsyncRc : Int

/-- Result of `run_playbook` (ansible_runner.py lines 66-96): the
`ansible-playbook` argv and the returned exit code.  The temp-inventory
write/cleanup are host side effects that do not affect the return
value.  The source returns `result.returncode` directly. -/
structure PlaybookRun where
  argv : List String
  rc : Int
deriving Repr, DecidableEq

/-- `run_playbook` (ansible_runner.py lines 66-96). -/
def run_playbook (w : World) (fs : HostFS) (tenant : String)
    (profile : SandboxProfile) (bootstrap_dir : String) : PlaybookRun :=
  { argv := ["ansible-playbook", "-i", w.invPath, bootstrap_dir ++ "/ansible/playbook.yml"]
      ++ build_extra_vars fs tenant profile
    rc := w.ansibleRc }

/-- Trace of `_sync_vault` (orchestrator.py lines 123-167): whether the
`rsync` subprocess ran, and whether a yellow warning was printed (either
the vault path not being a directory, or a non-zero rsync exit). -/
structure SyncResult where
  rsyncInvoked : Bool
  warned : Bool
deriving Repr, DecidableEq

/-- `_sync_vault` (orchestrator.py lines 123-167).  It returns `None` in
the source regardless of the rsync outcome; the trace records what was
printed/run. -/
def sync_vault (w : World) (fs : HostFS) (profile : SandboxProfile) : SyncResult :=
  let vault_path := expandPath fs profile.mounts.vault
  if fs.isDir vault_path = false then { rsyncInvoked := false, warned := true }
  else if w.rsyncRc = 0 then { rsyncInvoked := true, warned := false }
  else { rsyncInvoked := true, warned := true }

/-- Observable trace of one `orchestrate_up` run. -/
structure OrchResult where
  exitCode : Int
  /-- `run_playbook` was invoked. -/
  playbookRan : Bool
  /-- Mount points passed to `lima.verify_mount`, in loop order. -/
  verifiedMounts : List String
  /-- Step 6 called `_sync_vault`. -/
  syncAttempted : Bool
  rsyncInvoked : Bool
  syncWarned : Bool
deriving Repr, DecidableEq

/-- The mount-verification loop of `orchestrate_up` (orchestrator.py
lines 84-91): returns the mount points checked (all of them — the loop
has no break) and the final `failed` flag. -/
def verifyLoop (w : World) : List MountSpec → List String × Bool
  | [] => ([], false)
  | m :: rest =>
    let ok := w.verifyMount m.mount_point
    let r := verifyLoop w rest
    (m.mount_point :: r.1, !ok || r.2)

/-- `orchestrate_up` (orchestrator.py lines 21-120). -/
def orchestrate_up (w : World) (fs : HostFS) (tenant : String)
    (profile : SandboxProfile) (bootstrap_dir : String) : OrchResult :=
  -- 1. dependency checks
  if w.brewOk = false then
    { exitCode := 1, playbookRan := false, verifiedMounts := []
      syncAttempted := false, rsyncInvoked := false, syncWarned := false }
  else if w.brewDepsRc ≠ 0 then
    { exitCode := w.brewDepsRc, playbookRan := false, verifiedMounts := []
      syncAttempted := false, rsyncInvoked := false, syncWarned := false }
  -- (install_ansible_collections failure is a warning only)
  -- 2. Lima config generation
  else if w.vmExists = false ∧ profile.mounts.openclaw = "" then
    { exitCode := 1, playbookRan := false, verifiedMounts := []
      syncAttempted := false, rsyncInvoked := false, syncWarned := false }
  else
    -- 3. ensure VM is running
    match w.ensureRunning with
    | .error _ =>
      { exitCode := 1, playbookRan := false, verifiedMounts := []
        syncAttempted := false, rsyncInvoked := false, syncWarned := false }
    | .ok _created =>
      -- 4. verify mounts
      let ctx := build_context fs profile bootstrap_dir
      let vres := verifyLoop w ctx.mounts
      if vres.2 then
        { exitCode := 1, playbookRan := false, verifiedMounts := vres.1
          syncAttempted := false, rsyncInvoked := false, syncWarned := false }
      else
        -- 5. ansible
        match w.sshDetails with
        | .error _ =>
          { exitCode := 1, playbookRan := false, verifiedMounts := vres.1
            syncAttempted := false, rsyncInvoked := false, syncWarned := false }
        | .ok _ssh =>
          let run := run_playbook w fs tenant profile bootstrap_dir
          if run.rc ≠ 0 then
            { exitCode := run.rc, playbookRan := true, verifiedMounts := vres.1
              syncAttempted := false, rsyncInvoked := false, syncWarned := false }
          else
            -- 6. vault sync (best-effort)
            if profile.mounts.vault ≠ "" ∧ profile.mode.yolo_unsafe = false then
              let s := sync_vault w fs profile
              { exitCode := 0, playbookRan := true, verifiedMounts := vres.1
                syncAttempted := true, rsyncInvoked := s.rsyncInvoked
                syncWarned := s.warned }
            else
              -- 7. report
              { exitCode := 0, playbookRan := true, verifiedMounts := vres.1
                syncAttempted := false, rsyncInvoked := false, syncWarned := false }

/-! ## Helper lemmas -/

theorem verifyLoop_fst (w : World) (ms : List MountSpec) :
    (verifyLoop w ms).1 = ms.map MountSpec.mount_point := by
  induction ms with
  | nil => rfl
  | cons m rest ih => simp [verifyLoop, ih]

theorem verifyLoop_snd (w : World) (ms : List MountSpec) :
    (verifyLoop w ms).2 = ms.any (fun m => !w.verifyMount m.mount_point) := by
  induction ms with
  | nil => rfl
  | cons m rest ih => simp [verifyLoop, ih]

/-! ## Concrete fixtures used by the witness theorems -/

/-- A concrete host filesystem: identity expansion, fixed parent and
basename, every path exists and is a directory, empty file contents. -/
def sampleFS : HostFS :=
  ⟨id, id, fun _ => "/parent", fun _ => "secrets.env", fun _ => true, fun _ => true,
   fun _ => .ok ""⟩

/-- A concrete profile with every mount role configured. -/
def sampleProfileAll : SandboxProfile :=
  { mounts := { openclaw := "/repo", config := "/cfg", agent_data := "/agents"
                buildlog_data := "/logs", secrets := "/sec/secrets.env", vault := "/vault" } }

/-! ## Claims about `build_context` (C4, C5) -/

/-- Claim C4: for every profile in which all six mount roles are
configured non-empty, `build_context` returns exactly seven mounts in
the fixed order primary-repo, provisioning-assets, vault, config,
agent-data, build-log-data, secrets-parent-directory. -/
theorem claim_C4_mount_order (fs : HostFS) (p : SandboxProfile) (bdir : String)
    (h1 : p.mounts.openclaw ≠ "") (h2 : p.mounts.config ≠ "")
    (h3 : p.mounts.agent_data ≠ "") (h4 : p.mounts.buildlog_data ≠ "")
    (h5 : p.mounts.secrets ≠ "") (h6 : p.mounts.vault ≠ "") :
    (build_context fs p bdir).mounts.map MountSpec.mount_point =
      ["/mnt/openclaw", "/mnt/provision", "/mnt/obsidian", "/mnt/openclaw-config",
       "/mnt/openclaw-agents", "/mnt/buildlog-data", "/mnt/secrets"] := by
  simp [build_context, h1, h2, h3, h4, h5, h6]

/-- Witness for C4 at a concrete profile with all six roles set. -/
theorem claim_C4_witness :
    (build_context sampleFS sampleProfileAll "/boot").mounts.map MountSpec.mount_point =
      ["/mnt/openclaw", "/mnt/provision", "/mnt/obsidian", "/mnt/openclaw-config",
       "/mnt/openclaw-agents", "/mnt/buildlog-data", "/mnt/secrets"] :=
  claim_C4_mount_order sampleFS sampleProfileAll "/boot" (by decide) (by decide)
    (by decide) (by decide) (by decide) (by decide)

/-- Claim C5: the port-forward list always starts with the fixed default
entry (18789/18789); when `memgraph` is enabled it is exactly the
default plus the three fixed entries 7687, 3000, 7444 and contains no
entry for any explicit `memgraph_ports` value outside those fixed ports;
when disabled it is the default plus one entry per `memgraph_ports`
value. -/
theorem claim_C5_port_forwards (fs : HostFS) (p : SandboxProfile) (bdir : String) :
    (build_context fs p bdir).port_forwards.head? =
      some { guest_port := 18789, host_port := 18789 }
    ∧ (p.mode.memgraph = true →
        (build_context fs p bdir).port_forwards =
          [{ guest_port := 18789, host_port := 18789 }, { guest_port := 7687, host_port := 7687 },
           { guest_port := 3000, host_port := 3000 }, { guest_port := 7444, host_port := 7444 }]
        ∧ ∀ q ∈ p.mode.memgraph_ports, q ∉ ([18789, 7687, 3000, 7444] : List Int) →
            ∀ s ∈ (build_context fs p bdir).port_forwards, s.guest_port ≠ q)
    ∧ (p.mode.memgraph = false →
        (build_context fs p bdir).port_forwards =
          { guest_port := 18789, host_port := 18789 }
            :: p.mode.memgraph_ports.map (fun q => { guest_port := q, host_port := q })) := by
  refine ⟨?_, ?_, ?_⟩
  · simp [build_context]
  · intro hm
    constructor
    · simp [build_context, hm]
    · intro q _hq hnot s hs
      simp [build_context, hm] at hs
      rcases hs with hs | hs | hs | hs <;> rw [hs] <;> simp at hnot ⊢ <;> omega
  · intro hm
    simp [build_context, hm]

/-- Witness for C5: `memgraph` enabled together with an explicit port
9999 yields exactly the default plus the three fixed forwards, and no
forward for 9999. -/
theorem claim_C5_witness :
    (build_context sampleFS { mode := { memgraph := true, memgraph_ports := [9999] } }
        "/boot").port_forwards =
      [{ guest_port := 18789, host_port := 18789 }, { guest_port := 7687, host_port := 7687 },
       { guest_port := 3000, host_port := 3000 }, { guest_port := 7444, host_port := 7444 }]
    ∧ ∀ s ∈ (build_context sampleFS { mode := { memgraph := true, memgraph_ports := [9999] } }
        "/boot").port_forwards, s.guest_port ≠ 9999 := by
  obtain ⟨-, h2, -⟩ :=
    claim_C5_port_forwards sampleFS
      { mode := { memgraph := true, memgraph_ports := [9999] } } "/boot"
  obtain ⟨ha, hb⟩ := h2 rfl
  exact ⟨ha, hb 9999 (by decide) (by decide)⟩

/-! ## Claims about `build_extra_vars` (C6) -/

theorem extendArgs_eq_append (pairs : List (String × String)) (argv : List String) :
    extendArgs argv pairs = argv ++ flatPairs pairs := by
  induction pairs generalizing argv with
  | nil => simp [extendArgs, flatPairs]
  | cons kv rest ih =>
    rw [extendArgs, ih]
    simp [flatPairs]

theorem flatPairs_length (pairs : List (String × String)) :
    (flatPairs pairs).length = 2 * pairs.length := by
  induction pairs with
  | nil => rfl
  | cons kv rest ih => simp [flatPairs] at ih ⊢; omega

/-- The layout claim C6 asserts for `build_extra_vars`: the tenant pair,
the three path-constant pairs, the secrets-basename pair, then five
boolean flag pairs rendered as lowercase strings, then the user extra
vars. -/
def extraVarsClaimedShape (fs : HostFS) (tenant : String) (p : SandboxProfile) : Prop :=
  ∃ flags : List (String × String), flags.length = 5
    ∧ (∀ kv ∈ flags, kv.2 = "true" ∨ kv.2 = "false")
    ∧ build_extra_vars fs tenant p =
        flatPairs ([("tenant_name", tenant), ("provision_path", "/mnt/provision"),
                    ("openclaw_path", "/mnt/openclaw"), ("obsidian_path", "/mnt/obsidian"),
                    ("secrets_filename", secrets_filename fs p)] ++ flags ++ p.extra_vars)

/-- Counterexample to C6 as stated: already for the default profile no
such decomposition exists — the code emits eleven built-in pairs (four
boolean flags plus the two conditional guest mount-point strings), not
ten. -/
theorem claim_C6_counterexample : ¬ extraVarsClaimedShape sampleFS "dev" {} := by
  rintro ⟨flags, h5, -, heq⟩
  have hL : (build_extra_vars sampleFS "dev" {}).length = 22 := by decide
  rw [heq, flatPairs_length] at hL
  simp [h5] at hL

/-- Claim C6 (amended): the argument list is flat and ordered as the
tenant pair, the three path constants, the secrets basename (empty
string when unset), the two overlay flags and the docker flag as
lowercase booleans, the two conditional guest mount-point strings
(empty when the role is unconfigured), the graph-service flag as a
lowercase boolean, and then the user-supplied extra variables appended
last, after all eleven built-in pairs. -/
theorem claim_C6_extra_vars_layout (fs : HostFS) (tenant : String) (p : SandboxProfile) :
    build_extra_vars fs tenant p =
      flatPairs
        ([("tenant_name", tenant),
          ("provision_path", "/mnt/provision"),
          ("openclaw_path", "/mnt/openclaw"),
          ("obsidian_path", "/mnt/obsidian"),
          ("secrets_filename", secrets_filename fs p),
          ("overlay_yolo_mode", boolLower p.mode.yolo),
          ("overlay_yolo_unsafe", boolLower p.mode.yolo_unsafe),
          ("docker_enabled", boolLower (!p.mode.no_docker)),
          ("agent_data_mount", if p.mounts.agent_data ≠ "" then "/mnt/openclaw-agents" else ""),
          ("buildlog_data_mount", if p.mounts.buildlog_data ≠ "" then "/mnt/buildlog-data" else ""),
          ("memgraph_enabled", boolLower p.mode.memgraph)] ++ p.extra_vars) := by
  rw [build_extra_vars]
  rw [extendArgs_eq_append, extendArgs_eq_append]
  simp [flatPairs]

/-! ## Claims about `validate_profile` (C9, C10) -/

/-- Claim C9: when both mutually-exclusive mode flags are set,
`validate_profile` reports a failed result containing the
mutual-exclusion error; and `ok` holds exactly when the error list is
empty. -/
theorem claim_C9_mutual_exclusion (fs : HostFS) (p : SandboxProfile) :
    (p.mode.yolo = true → p.mode.yolo_unsafe = true →
      (validate_profile fs p).ok = false
      ∧ "yolo and yolo_unsafe are mutually exclusive" ∈ (validate_profile fs p).errors)
    ∧ ((validate_profile fs p).ok = true ↔ (validate_profile fs p).errors = []) := by
  have hok : ∀ r : ValidationResult, r.ok = true ↔ r.errors = [] := by
    intro r
    simp [ValidationResult.ok, List.length_eq_zero]
  constructor
  · intro h1 h2
    have hmem : "yolo and yolo_unsafe are mutually exclusive" ∈ (validate_profile fs p).errors := by
      simp [validate_profile, check_coherence, h1, h2]
    refine ⟨?_, hmem⟩
    rcases hne : (validate_profile fs p).ok with _ | _
    · rfl
    · exfalso
      have := (hok _).mp hne
      rw [this] at hmem
      exact List.not_mem_nil _ hmem
  · exact hok _

/-- Witness for C9 at a concrete profile with both flags set. -/
theorem claim_C9_witness :
    (validate_profile sampleFS { mode := { yolo := true, yolo_unsafe := true } }).ok = false
    ∧ "yolo and yolo_unsafe are mutually exclusive"
        ∈ (validate_profile sampleFS { mode := { yolo := true, yolo_unsafe := true } }).errors :=
  (claim_C9_mutual_exclusion sampleFS { mode := { yolo := true, yolo_unsafe := true } }).1
    rfl rfl

/-- Claim C10: when the configured secrets path does not exist, the
secrets audit contributes no error and no warning; the validation result
carries the path-existence error for the secrets mount, and its errors
and warnings are exactly those of the path and coherence checks. -/
theorem claim_C10_missing_secrets_path (fs : HostFS) (p : SandboxProfile)
    (h1 : p.mounts.secrets ≠ "")
    (h2 : fs.pathExists (fs.expanduser p.mounts.secrets) = false) :
    check_secrets fs p = ([], [])
    ∧ ("mount.secrets: path does not exist: " ++ fs.expanduser p.mounts.secrets)
        ∈ check_paths fs p
    ∧ (validate_profile fs p).errors = check_paths fs p ++ (check_coherence p).1
    ∧ (validate_profile fs p).warnings = (check_coherence p).2 := by
  have hs : check_secrets fs p = ([], []) := by
    simp [check_secrets, h1, h2]
  refine ⟨hs, ?_, ?_, ?_⟩
  · simp [check_paths, pathFieldErr, h1, h2]
  · simp [validate_profile, hs]
  · simp [validate_profile, hs]

/-- Witness for C10 at a concrete profile whose secrets path is missing
on a filesystem where no path exists. -/
theorem claim_C10_witness :
    check_secrets ⟨id, id, fun _ => "/parent", fun _ => "n", fun _ => false, fun _ => false,
        fun _ => .ok ""⟩ { mounts := { secrets := "/sec/secrets.env" } } = ([], [])
    ∧ ("mount.secrets: path does not exist: /sec/secrets.env")
        ∈ check_paths ⟨id, id, fun _ => "/parent", fun _ => "n", fun _ => false, fun _ => false,
            fun _ => .ok ""⟩ { mounts := { secrets := "/sec/secrets.env" } } := by
  have h := claim_C10_missing_secrets_path
    ⟨id, id, fun _ => "/parent", fun _ => "n", fun _ => false, fun _ => false, fun _ => .ok ""⟩
    { mounts := { secrets := "/sec/secrets.env" } } (by decide) (by decide)
  exact ⟨h.1, h.2.1⟩

/-! ## Claims about `orchestrate_up` (C1, C2, C3) -/

/-- Claim C1: if the orchestration reaches the mount-verification gate
and at least one mount point fails remote verification, the run exits
with code 1, the provisioning engine is never invoked, and every mount
of the rebuilt context was still verified (the loop does not
short-circuit). -/
theorem claim_C1_mount_gate (w : World) (fs : HostFS) (tenant : String)
    (p : SandboxProfile) (bdir : String)
    (hb : w.brewOk = true) (hd : w.brewDepsRc = 0)
    (hcfg : w.vmExists = false → p.mounts.openclaw ≠ "")
    (hens : ∃ c, w.ensureRunning = .ok c)
    (hfail : ∃ m ∈ (build_context fs p bdir).mounts, w.verifyMount m.mount_point = false) :
    (orchestrate_up w fs tenant p bdir).exitCode = 1
    ∧ (orchestrate_up w fs tenant p bdir).playbookRan = false
    ∧ (orchestrate_up w fs tenant p bdir).verifiedMounts =
        (build_context fs p bdir).mounts.map MountSpec.mount_point := by
  obtain ⟨c, hc⟩ := hens
  have h3 : ¬(w.vmExists = false ∧ p.mounts.openclaw = "") := by
    rintro ⟨hv, ho⟩
    exact hcfg hv ho
  have hv2 : (verifyLoop w (build_context fs p bdir).mounts).2 = true := by
    rw [verifyLoop_snd, List.any_eq_true]
    obtain ⟨m, hm, hvm⟩ := hfail
    exact ⟨m, hm, by simp [hvm]⟩
  simp [orchestrate_up, hb, hd, h3, hc, hv2, verifyLoop_fst]

/-- A world in which every gate before mount verification succeeds but
the vault mount point is not accessible in the VM. -/
def worldMountFail : World :=
  ⟨true, 0, 0, true, .ok false, fun s => s ≠ "/mnt/obsidian",
   .ok ⟨"127.0.0.1", 60022, "dev", "/k"⟩, 0, "/tmp/inv", 0⟩

/-- Witness for C1: one of seven mounts fails, exit is 1, the engine is
not invoked, and all seven mount points were still checked. -/
theorem claim_C1_witness :
    (orchestrate_up worldMountFail sampleFS "dev" sampleProfileAll "/boot").exitCode = 1
    ∧ (orchestrate_up worldMountFail sampleFS "dev" sampleProfileAll "/boot").playbookRan = false
    ∧ (orchestrate_up worldMountFail sampleFS "dev" sampleProfileAll "/boot").verifiedMounts =
        ["/mnt/openclaw", "/mnt/provision", "/mnt/obsidian", "/mnt/openclaw-config",
         "/mnt/openclaw-agents", "/mnt/buildlog-data", "/mnt/secrets"] := by
  have h := claim_C1_mount_gate worldMountFail sampleFS "dev" sampleProfileAll "/boot"
    rfl rfl (by decide) ⟨false, rfl⟩ (by decide)
  exact ⟨h.1, h.2.1, h.2.2.trans (by decide)⟩

/-- Claim C2: at the provisioning gate, an SSH-details failure exits
with code 1 and the engine is not invoked; otherwise a non-zero engine
exit code `n` becomes the orchestrator's exit code exactly (not coerced
to 1), and `run_playbook` returns the engine subprocess's exit code
unmodified. -/
theorem claim_C2_provisioning_exit (w : World) (fs : HostFS) (tenant : String)
    (p : SandboxProfile) (bdir : String)
    (hb : w.brewOk = true) (hd : w.brewDepsRc = 0)
    (hcfg : w.vmExists = false → p.mounts.openclaw ≠ "")
    (hens : ∃ c, w.ensureRunning = .ok c)
    (hok : ∀ m ∈ (build_context fs p bdir).mounts, w.verifyMount m.mount_point = true) :
    (∀ e, w.sshDetails = .error e →
      (orchestrate_up w fs tenant p bdir).exitCode = 1
      ∧ (orchestrate_up w fs tenant p bdir).playbookRan = false)
    ∧ (∀ ssh, w.sshDetails = .ok ssh → w.ansibleRc ≠ 0 →
      (orchestrate_up w fs tenant p bdir).exitCode = w.ansibleRc
      ∧ (orchestrate_up w fs tenant p bdir).playbookRan = true)
    ∧ (run_playbook w fs tenant p bdir).rc = w.ansibleRc := by
  obtain ⟨c, hc⟩ := hens
  have h3 : ¬(w.vmExists = false ∧ p.mounts.openclaw = "") := by
    rintro ⟨hv, ho⟩
    exact hcfg hv ho
  have hv2 : (verifyLoop w (build_context fs p bdir).mounts).2 = false := by
    rw [verifyLoop_snd]
    simp only [List.any_eq_false]
    intro m hm
    simp [hok m hm]
  refine ⟨?_, ?_, rfl⟩
  · intro e he
    simp [orchestrate_up, hb, hd, h3, hc, hv2, he]
  · intro ssh hssh hrc
    simp [orchestrate_up, hb, hd, h3, hc, hv2, hssh, run_playbook, hrc]

/-- A world in which every gate before provisioning succeeds and the
engine exits with code 7. -/
def worldAnsibleFail : World :=
  ⟨true, 0, 0, true, .ok false, fun _ => true,
   .ok ⟨"127.0.0.1", 60022, "dev", "/k"⟩, 7, "/tmp/inv", 0⟩

/-- Witness for C2: an engine exit code of 7 propagates as the
orchestrator's exit code, and `run_playbook` reports 7. -/
theorem claim_C2_witness :
    (orchestrate_up worldAnsibleFail sampleFS "dev" sampleProfileAll "/boot").exitCode = 7
    ∧ (orchestrate_up worldAnsibleFail sampleFS "dev" sampleProfileAll "/boot").playbookRan = true
    ∧ (run_playbook worldAnsibleFail sampleFS "dev" sampleProfileAll "/boot").rc = 7 := by
  have h := claim_C2_provisioning_exit worldAnsibleFail sampleFS "dev" sampleProfileAll "/boot"
    rfl rfl (by decide) ⟨false, rfl⟩ (by decide)
  have h2 := h.2.1 ⟨"127.0.0.1", 60022, "dev", "/k"⟩ rfl (by decide)
  exact ⟨h2.1, h2.2, h.2.2⟩

/-- The vault-sync step can only have been entered when a vault mount is
configured and unrestricted-host-write mode is off. -/
theorem syncAttempted_cond (w : World) (fs : HostFS) (tenant : String)
    (p : SandboxProfile) (bdir : String) :
    (orchestrate_up w fs tenant p bdir).syncAttempted = true →
    p.mounts.vault ≠ "" ∧ p.mode.yolo_unsafe = false := by
  intro h
  unfold orchestrate_up at h
  repeat' split at h
  all_goals simp_all [apply_ite OrchResult.syncAttempted]

/-- Claim C3: the vault-sync step runs only when a vault mount is
configured and `yolo_unsafe` is off, and its outcome never changes the
exit code: when all prior gates succeed the run exits 0 even when rsync
exits non-zero, in which case a warning is emitted. -/
theorem claim_C3_vault_sync (w : World) (fs : HostFS) (tenant : String)
    (p : SandboxProfile) (bdir : String) :
    ((p.mounts.vault = "" ∨ p.mode.yolo_unsafe = true) →
      (orchestrate_up w fs tenant p bdir).syncAttempted = false)
    ∧ (w.brewOk = true → w.brewDepsRc = 0 →
      (w.vmExists = false → p.mounts.openclaw ≠ "") →
      (∃ c, w.ensureRunning = .ok c) →
      (∀ m ∈ (build_context fs p bdir).mounts, w.verifyMount m.mount_point = true) →
      (∃ ssh, w.sshDetails = .ok ssh) → w.ansibleRc = 0 →
      (orchestrate_up w fs tenant p bdir).exitCode = 0
      ∧ ((orchestrate_up w fs tenant p bdir).syncAttempted = true ↔
          (p.mounts.vault ≠ "" ∧ p.mode.yolo_unsafe = false))
      ∧ (p.mounts.vault ≠ "" → p.mode.yolo_unsafe = false →
          fs.isDir (expandPath fs p.mounts.vault) = true → w.rsyncRc ≠ 0 →
          (orchestrate_up w fs tenant p bdir).syncWarned = true)) := by
  constructor
  · intro hcase
    rcases hs : (orchestrate_up w fs tenant p bdir).syncAttempted with _ | _
    · rfl
    · exfalso
      obtain ⟨hv, hy⟩ := syncAttempted_cond w fs tenant p bdir hs
      rcases hcase with hcase | hcase
      · exact hv hcase
      · rw [hcase] at hy
        simp at hy
  · intro hb hd hcfg hens hok hssh hrc
    obtain ⟨c, hc⟩ := hens
    obtain ⟨ssh, hsd⟩ := hssh
    have h3 : ¬(w.vmExists = false ∧ p.mounts.openclaw = "") := by
      rintro ⟨hv, ho⟩
      exact hcfg hv ho
    have hv2 : (verifyLoop w (build_context fs p bdir).mounts).2 = false := by
      rw [verifyLoop_snd]
      simp only [List.any_eq_false]
      intro m hm
      simp [hok m hm]
    by_cases hvc : p.mounts.vault ≠ "" ∧ p.mode.yolo_unsafe = false
    · refine ⟨?_, ?_, ?_⟩
      · simp [orchestrate_up, hb, hd, h3, hc, hv2, hsd, run_playbook, hrc, hvc]
      · simp [orchestrate_up, hb, hd, h3, hc, hv2, hsd, run_playbook, hrc, hvc]
      · intro _hv _hy hdir hrs
        simp [orchestrate_up, hb, hd, h3, hc, hv2, hsd, run_playbook, hrc, hvc,
          sync_vault, hdir, hrs]
    · refine ⟨?_, ?_, ?_⟩
      · simp [orchestrate_up, hb, hd, h3, hc, hv2, hsd, run_playbook, hrc, hvc]
      · simp [orchestrate_up, hb, hd, h3, hc, hv2, hsd, run_playbook, hrc, hvc]
      · intro hv hy _ _
        exact absurd ⟨hv, hy⟩ hvc

/-- A world in which every gate succeeds, the engine exits 0, and the
vault rsync exits 5. -/
def worldRsyncFail : World :=
  ⟨true, 0, 0, true, .ok false, fun _ => true,
   .ok ⟨"127.0.0.1", 60022, "dev", "/k"⟩, 0, "/tmp/inv", 5⟩

/-- Witness for C3: rsync failing with exit 5 still yields overall exit
0, with the sync warning emitted. -/
theorem claim_C3_witness :
    (orchestrate_up worldRsyncFail sampleFS "dev" sampleProfileAll "/boot").exitCode = 0
    ∧ (orchestrate_up worldRsyncFail sampleFS "dev" sampleProfileAll "/boot").syncAttempted = true
    ∧ (orchestrate_up worldRsyncFail sampleFS "dev" sampleProfileAll "/boot").syncWarned = true := by
  have h := (claim_C3_vault_sync worldRsyncFail sampleFS "dev" sampleProfileAll "/boot").2
    rfl rfl (by decide) ⟨false, rfl⟩ (by decide) ⟨⟨"127.0.0.1", 60022, "dev", "/k"⟩, rfl⟩ rfl
  exact ⟨h.1, h.2.1.mpr (by decide), h.2.2 (by decide) rfl rfl (by decide)⟩

/-! ## Claims about `get_ssh_details` (C7) -/

theorem parse_ssh_field_cons_some {f l v : List Char} (ls : List (List Char))
    (h : matchFieldLine f l = some v) :
    parse_ssh_field (l :: ls) f = some v := by
  simp [parse_ssh_field, h]

theorem parse_ssh_field_append_none {f : List Char} (pre rest : List (List Char))
    (hpre : ∀ l ∈ pre, matchFieldLine f l = none) :
    parse_ssh_field (pre ++ rest) f = parse_ssh_field rest f := by
  induction pre with
  | nil => rfl
  | cons l ls ih =>
    have hl : matchFieldLine f l = none := hpre l (List.mem_cons_self l ls)
    simp only [List.cons_append, parse_ssh_field, hl]
    exact ih (fun x hx => hpre x (List.mem_cons_of_mem l hx))

theorem parse_ssh_field_none {f : List Char} (lines : List (List Char))
    (h : ∀ l ∈ lines, matchFieldLine f l = none) :
    parse_ssh_field lines f = none := by
  induction lines with
  | nil => rfl
  | cons l ls ih =>
    simp only [parse_ssh_field, h l (List.mem_cons_self l ls)]
    exact ih (fun x hx => h x (List.mem_cons_of_mem l hx))

/-- Claim C7: `get_ssh_details` takes the first matching line per field
(quote-stripping the IdentityFile value); host, port and user default to
127.0.0.1, 22 and the current login user when the field is absent; and
the call fails when no IdentityFile line is found at all. -/
theorem claim_C7_ssh_parsing :
    (∀ (pre mid post : List (List Char)) (l₁ l₂ v₁ v₂ : List Char),
      (∀ l ∈ pre, matchFieldLine "IdentityFile".data l = none) →
      matchFieldLine "IdentityFile".data l₁ = some v₁ →
      matchFieldLine "IdentityFile".data l₂ = some v₂ →
      v₁ ≠ [] →
      keyOf (pre ++ l₁ :: (mid ++ l₂ :: post)) = stripQuotes v₁)
    ∧ (∀ lines, (∀ l ∈ lines, matchFieldLine "Hostname".data l = none) →
        hostOf lines = "127.0.0.1".data)
    ∧ (∀ lines, (∀ l ∈ lines, matchFieldLine "Port".data l = none) →
        portStrOf lines = "22".data ∧ pyInt (portStrOf lines) = some 22)
    ∧ (∀ lines login, (∀ l ∈ lines, matchFieldLine "User".data l = none) →
        userOf lines login = login)
    ∧ (∀ lines login, (∀ l ∈ lines, matchFieldLine "IdentityFile".data l = none) →
        get_ssh_details lines login = .error "Could not determine SSH key from Lima") := by
  refine ⟨?_, ?_, ?_, ?_, ?_⟩
  · intro pre mid post l₁ l₂ v₁ v₂ hpre h1 _h2 hne
    have hp : parse_ssh_field (pre ++ l₁ :: (mid ++ l₂ :: post)) "IdentityFile".data =
        some v₁ := by
      rw [parse_ssh_field_append_none pre _ hpre]
      exact parse_ssh_field_cons_some _ h1
    simp [keyOf, hp, hne]
  · intro lines h
    simp [hostOf, parse_ssh_field_none lines h, orDefaultStr]
  · intro lines h
    refine ⟨?_, ?_⟩ <;> simp [portStrOf, parse_ssh_field_none lines h, orDefaultStr]
    decide
  · intro lines login h
    simp [userOf, parse_ssh_field_none lines h, orDefaultStr]
  · intro lines login h
    have hk : keyOf lines = [] := by
      simp [keyOf, parse_ssh_field_none lines h]
    simp [get_ssh_details, hk]

/-- Witness for C7: two IdentityFile lines — the first wins, quotes
stripped; defaults apply when Hostname/Port/User are absent; and a
config with no IdentityFile line fails. -/
theorem claim_C7_witness :
    keyOf ["Hostname 1.2.3.4".data, "IdentityFile \"/k/a\"".data,
           "IdentityFile /k/b".data] = "/k/a".data
    ∧ hostOf ["IdentityFile /k".data] = "127.0.0.1".data
    ∧ portStrOf ["IdentityFile /k".data] = "22".data
    ∧ userOf ["IdentityFile /k".data] "me".data = "me".data
    ∧ get_ssh_details ["Hostname 1.2.3.4".data] "me".data =
        .error "Could not determine SSH key from Lima" := by
  obtain ⟨h1, h2, h3, h4, h5⟩ := claim_C7_ssh_parsing
  refine ⟨?_, ?_, ?_, ?_, ?_⟩
  · exact (h1 ["Hostname 1.2.3.4".data] [] [] "IdentityFile \"/k/a\"".data
      "IdentityFile /k/b".data "\"/k/a\"".data "/k/b".data
      (by decide) (by decide) (by decide) (by decide)).trans (by decide)
  · exact h2 _ (by decide)
  · exact (h3 _ (by decide)).1
  · exact h4 _ _ (by decide)
  · exact h5 _ _ (by decide)

/-! ## Claims about the secrets audit (C8): character-level lemmas -/

theorem dropWhile_cons_of_neg {p : Char → Bool} {c : Char} (l : List Char) (h : p c = false) :
    List.dropWhile p (c :: l) = c :: l := by
  simp [List.dropWhile_cons, h]

theorem dropTrailWs_eq_self (l : List Char) (h : ∀ c ∈ l, isPySpace c = false) :
    dropTrailWs l = l := by
  have h2 : List.dropWhile isPySpace l.reverse = l.reverse := by
    cases hr : l.reverse with
    | nil => rfl
    | cons c cs =>
      have hc : c ∈ l := by
        rw [← List.mem_reverse, hr]
        exact List.mem_cons_self c cs
      exact dropWhile_cons_of_neg cs (h c hc)
  unfold dropTrailWs
  rw [h2, List.reverse_reverse]

theorem trimC_eq_self (l : List Char) (h : ∀ c ∈ l, isPySpace c = false) :
    trimC l = l := by
  unfold trimC
  cases l with
  | nil => rfl
  | cons c cs =>
    rw [dropWhile_cons_of_neg cs (h c (List.mem_cons_self c cs))]
    exact dropTrailWs_eq_self _ h

theorem dropWhile_append_cons {p : Char → Bool} (as : List Char) {c : Char} (cs : List Char)
    (hc : p c = false) :
    List.dropWhile p (as ++ c :: cs) = List.dropWhile p as ++ c :: cs := by
  induction as with
  | nil => simp [dropWhile_cons_of_neg _ hc]
  | cons a rest ih =>
    by_cases ha : p a = true
    · simp [List.dropWhile_cons, ha, ih]
    · have ha2 : p a = false := by simpa using ha
      simp [List.dropWhile_cons, ha2]

theorem dropTrailWs_append_cons (xs : List Char) {c : Char} (v : List Char)
    (hc : isPySpace c = false) :
    dropTrailWs (xs ++ c :: v) = xs ++ c :: dropTrailWs v := by
  unfold dropTrailWs
  rw [List.reverse_append, List.reverse_cons, List.append_assoc, List.singleton_append,
    dropWhile_append_cons _ _ hc]
  simp

theorem takeWhile_append_cons {p : Char → Bool} (k : List Char) {c : Char} (w : List Char)
    (hall : ∀ x ∈ k, p x = true) (hc : p c = false) :
    List.takeWhile p (k ++ c :: w) = k := by
  induction k with
  | nil => simp [List.takeWhile_cons, hc]
  | cons a rest ih =>
    have ha := hall a (List.mem_cons_self a rest)
    simp [List.takeWhile_cons, ha,
      ih (fun x hx => hall x (List.mem_cons_of_mem a hx))]

theorem dropPre_self_append (p rest : List Char) : dropPre p (p ++ rest) = some rest := by
  induction p with
  | nil => rfl
  | cons c cs ih => simp [dropPre, ih]

theorem dropPre_eq_some {p : List Char} : ∀ {l r : List Char}, dropPre p l = some r →
    l = p ++ r := by
  induction p with
  | nil =>
    intro l r h
    simp [dropPre] at h
    simp [h]
  | cons c cs ih =>
    intro l r h
    cases l with
    | nil => simp [dropPre] at h
    | cons d ds =>
      simp only [dropPre] at h
      split at h
      · rename_i hcd
        rw [← hcd, List.cons_append]
        exact congrArg (c :: ·) (ih h)
      · exact absurd h (by simp)

theorem dropPre_export_key_none {k : List Char} (v : List Char)
    (hall : ∀ x ∈ k, isPySpace x = false) :
    dropPre "export ".data (k ++ '=' :: v) = none := by
  cases hdp : dropPre "export ".data (k ++ '=' :: v) with
  | none => rfl
  | some r =>
    exfalso
    have heq : k ++ '=' :: v = "export ".data ++ r := dropPre_eq_some hdp
    by_cases h7 : 7 ≤ k.length
    · have h1 : (k ++ '=' :: v)[6]? = k[6]? := by
        rw [List.getElem?_append]
        rw [if_pos (by omega : (6 : ℕ) < k.length)]
      have h2 : ("export ".data ++ r)[6]? = some ' ' := by
        rw [List.getElem?_append]
        rw [if_pos (by decide : (6 : ℕ) < "export ".data.length)]
        decide
      have h3 : k[6]? = some ' ' := by rw [← h1, heq, h2]
      have h4 : ' ' ∈ k := List.mem_iff_getElem?.mpr ⟨6, h3⟩
      have := hall ' ' h4
      simp [isPySpace] at this
    · have h1 : (k ++ '=' :: v)[k.length]? = some '=' := by
        rw [List.getElem?_append_right (le_refl _)]
        simp
      have hlt : k.length < 7 := by omega
      have h2 : ("export ".data ++ r)[k.length]? = "export ".data[k.length]? := by
        rw [List.getElem?_append]
        rw [if_pos (by simpa using hlt)]
      have h3 : "export ".data[k.length]? = some '=' := by rw [← h2, ← heq, h1]
      revert h3
      set n := k.length with hn
      interval_cases n <;> decide

theorem lineKeyC_plain_key (k v : List Char) (hk : k ≠ [])
    (hall : ∀ c ∈ k, isPySpace c = false ∧ c ≠ '=') (hh : k.head? ≠ some '#') :
    lineKeyC (k ++ '=' :: v) = some k := by
  have hallws : ∀ c ∈ k, isPySpace c = false := fun c hc => (hall c hc).1
  have hall2 : ∀ x ∈ k, (fun c => decide (c ≠ '=')) x = true := fun x hx => by
    simp [(hall x hx).2]
  obtain ⟨c, cs, rfl⟩ : ∃ c cs, k = c :: cs := by
    cases k with
    | nil => exact absurd rfl hk
    | cons c cs => exact ⟨c, cs, rfl⟩
  have hc9 : c ≠ '#' := by simpa using hh
  have htrim : trimC ((c :: cs) ++ '=' :: v) = (c :: cs) ++ '=' :: dropTrailWs v := by
    unfold trimC
    rw [List.cons_append, dropWhile_cons_of_neg _ (hallws c (List.mem_cons_self c cs)),
      ← List.cons_append, dropTrailWs_append_cons _ _ (by decide)]
  have hdp : dropPre "export ".data ((c :: cs) ++ '=' :: dropTrailWs v) = none :=
    dropPre_export_key_none _ hallws
  simp only [lineKeyC, htrim, hdp]
  rw [if_neg (by simp : ¬((c :: cs) ++ '=' :: dropTrailWs v = []))]
  rw [if_neg (by simp [hc9] : ¬(((c :: cs) ++ '=' :: dropTrailWs v).head? = some '#'))]
  rw [takeWhile_append_cons _ _ hall2 (by decide), trimC_eq_self _ hallws]

theorem lineKeyC_export_key (k v : List Char) (_hk : k ≠ [])
    (hall : ∀ c ∈ k, isPySpace c = false ∧ c ≠ '=') (_hh : k.head? ≠ some '#') :
    lineKeyC ("export ".data ++ (k ++ '=' :: v)) = some k := by
  have hallws : ∀ c ∈ k, isPySpace c = false := fun c hc => (hall c hc).1
  have hall2 : ∀ x ∈ k, (fun c => decide (c ≠ '=')) x = true := fun x hx => by
    simp [(hall x hx).2]
  have htrim : trimC ("export ".data ++ (k ++ '=' :: v)) =
      "export ".data ++ (k ++ '=' :: dropTrailWs v) := by
    unfold trimC
    have h1 : List.dropWhile isPySpace ("export ".data ++ (k ++ '=' :: v)) =
        "export ".data ++ (k ++ '=' :: v) := by
      rw [show ("export ".data ++ (k ++ '=' :: v)) =
        'e' :: ("xport ".data ++ (k ++ '=' :: v)) from rfl]
      exact dropWhile_cons_of_neg _ (by decide)
    rw [h1, ← List.append_assoc, dropTrailWs_append_cons _ _ (by decide), List.append_assoc]
  have hdp : dropPre "export ".data ("export ".data ++ (k ++ '=' :: dropTrailWs v)) =
      some (k ++ '=' :: dropTrailWs v) := dropPre_self_append _ _
  simp only [lineKeyC, htrim, hdp]
  rw [if_neg (by simp : ¬("export ".data ++ (k ++ '=' :: dropTrailWs v) = []))]
  rw [if_neg (by rw [show ("export ".data ++ (k ++ '=' :: dropTrailWs v)) =
    'e' :: ("xport ".data ++ (k ++ '=' :: dropTrailWs v)) from rfl]; simp :
    ¬(("export ".data ++ (k ++ '=' :: dropTrailWs v)).head? = some '#'))]
  rw [takeWhile_append_cons _ _ hall2 (by decide), trimC_eq_self _ hallws]

theorem mem_missingRequired {present : List String} {rk : String}
    (h1 : rk ∈ REQUIRED_SECRET_KEYS) (h2 : rk ∉ present) :
    rk ∈ missingRequired present := by
  unfold missingRequired sortedStr
  rw [List.mem_insertionSort, List.mem_filter]
  exact ⟨h1, by simpa using h2⟩

theorem mem_missingOptional {present : List String} {okey : String}
    (h1 : okey ∈ KNOWN_SECRET_KEYS) (h2 : okey ∉ REQUIRED_SECRET_KEYS)
    (h3 : okey ∉ present) :
    okey ∈ missingOptional present := by
  unfold missingOptional sortedStr
  rw [List.mem_insertionSort, List.mem_filter, List.mem_filter]
  exact ⟨⟨h1, by simpa using h2⟩, by simpa using h3⟩

/-- Claim C8: the secrets audit warns (without error) when no secrets
mount is configured; the line parser skips blank lines and `#` comments
and tolerates a leading `export ` token; a missing required key yields
exactly one combined error listing all missing required keys in sorted
order; missing known-but-optional keys yield exactly one combined
warning listing them in sorted order. -/
theorem claim_C8_secrets_audit :
    (∀ fs p, p.mounts.secrets = "" →
      check_secrets fs p = ([], ["No secrets file configured — VM will have no API keys"]))
    ∧ (∀ line, trimC line = [] → lineKeyC line = none)
    ∧ (∀ line, (trimC line).head? = some '#' → lineKeyC line = none)
    ∧ (∀ k v : List Char, k ≠ [] → (∀ c ∈ k, isPySpace c = false ∧ c ≠ '=') →
        k.head? ≠ some '#' →
        lineKeyC ("export ".data ++ (k ++ '=' :: v)) = some k
        ∧ lineKeyC (k ++ '=' :: v) = some k)
    ∧ (∀ fs p text, p.mounts.secrets ≠ "" →
        fs.pathExists (fs.expanduser p.mounts.secrets) = true →
        fs.readText (fs.expanduser p.mounts.secrets) = .ok text →
        ((∃ rk ∈ REQUIRED_SECRET_KEYS, rk ∉ presentKeys text) →
          (check_secrets fs p).1 =
            ["Secrets file is missing required keys: "
              ++ joinComma (missingRequired (presentKeys text))]
          ∧ List.Sorted strLeP (missingRequired (presentKeys text))
          ∧ ∀ rk ∈ REQUIRED_SECRET_KEYS, rk ∉ presentKeys text →
              rk ∈ missingRequired (presentKeys text))
        ∧ ((∃ okey ∈ KNOWN_SECRET_KEYS, okey ∉ REQUIRED_SECRET_KEYS
              ∧ okey ∉ presentKeys text) →
          (check_secrets fs p).2 =
            ["Secrets file is missing optional keys: "
              ++ joinComma (missingOptional (presentKeys text))]
          ∧ List.Sorted strLeP (missingOptional (presentKeys text))
          ∧ ∀ okey ∈ KNOWN_SECRET_KEYS, okey ∉ REQUIRED_SECRET_KEYS →
              okey ∉ presentKeys text → okey ∈ missingOptional (presentKeys text))) := by
  refine ⟨?_, ?_, ?_, ?_, ?_⟩
  · intro fs p h
    simp [check_secrets, h]
  · intro line h
    simp [lineKeyC, h]
  · intro line h
    unfold lineKeyC
    cases hl : trimC line with
    | nil => simp
    | cons c cs =>
      rw [hl] at h
      simp only [List.head?_cons, Option.some_inj] at h
      simp [h]
  · intro k v hk hall hh
    exact ⟨lineKeyC_export_key k v hk hall hh, lineKeyC_plain_key k v hk hall hh⟩
  · intro fs p text hsec hex hrd
    constructor
    · rintro ⟨rk, hrkmem, hrkabs⟩
      have hne : missingRequired (presentKeys text) ≠ [] :=
        List.ne_nil_of_mem (mem_missingRequired hrkmem hrkabs)
      refine ⟨?_, List.sorted_insertionSort strLeP _, ?_⟩
      · simp [check_secrets, hsec, hex, hrd, hne]
      · intro rk2 h1 h2
        exact mem_missingRequired h1 h2
    · rintro ⟨okey, hmem, hnreq, habs⟩
      have hne : missingOptional (presentKeys text) ≠ [] :=
        List.ne_nil_of_mem (mem_missingOptional hmem hnreq habs)
      refine ⟨?_, List.sorted_insertionSort strLeP _, ?_⟩
      · simp [check_secrets, hsec, hex, hrd, hne]
      · intro okey2 h1 h2 h3
        exact mem_missingOptional h1 h2 h3

/-- A host filesystem whose secrets file reads `OPENAI_API_KEY=x`. -/
def secretsFS : HostFS :=
  ⟨id, id, fun _ => "/s", fun _ => "secrets.env", fun _ => true, fun _ => true,
   fun _ => .ok "OPENAI_API_KEY=x"⟩

/-- A profile configuring only the secrets mount. -/
def secretsProfile : SandboxProfile := { mounts := { secrets := "/s/secrets.env" } }

set_option maxRecDepth 100000 in
/-- Witness for C8: no mount gives the warning; blank, comment, export
and plain lines parse as claimed; a file with only `OPENAI_API_KEY=x`
yields the one combined error naming both required keys, sorted. -/
theorem claim_C8_witness :
    check_secrets sampleFS {} =
      ([], ["No secrets file configured — VM will have no API keys"])
    ∧ lineKeyC "   ".data = none
    ∧ lineKeyC "# note".data = none
    ∧ lineKeyC "export GH_TOKEN=x".data = some "GH_TOKEN".data
    ∧ lineKeyC "GH_TOKEN=x".data = some "GH_TOKEN".data
    ∧ (check_secrets secretsFS secretsProfile).1 =
        ["Secrets file is missing required keys: ANTHROPIC_API_KEY, GH_TOKEN"] := by
  obtain ⟨h1, h2, h3, h4, h5⟩ := claim_C8_secrets_audit
  refine ⟨h1 sampleFS {} rfl, h2 _ (by decide), h3 _ (by decide), ?_, ?_, ?_⟩
  · have h := (h4 "GH_TOKEN".data "x".data (by decide) (by decide) (by decide)).1
    have heq : "export GH_TOKEN=x".data =
        "export ".data ++ ("GH_TOKEN".data ++ '=' :: "x".data) := by decide
    rw [heq]
    exact h
  · have h := (h4 "GH_TOKEN".data "x".data (by decide) (by decide) (by decide)).2
    have heq : "GH_TOKEN=x".data = "GH_TOKEN".data ++ '=' :: "x".data := by decide
    rw [heq]
    exact h
  · have h := ((h5 secretsFS secretsProfile "OPENAI_API_KEY=x" (by decide) rfl rfl).1
      ⟨"ANTHROPIC_API_KEY", by decide, by decide⟩).1
    exact h.trans (by decide)

end OpenclawSandbox
